import Mathlib

/-!
Shallow embedding of the webhook-relay application (`app.py`) and its
Google Drive/Sheets adapter (`services/google_service.py`).

External collaborators (the Flask request-parsing layer, the telegram
library's `Update.de_json`, and the remote Google APIs) are modelled as
explicit inputs: a call that can raise in Python is an `Except` value or
an `Except`-returning oracle field, and the embedding of each handler
states exactly how the source reacts to each outcome.  Python `None` is
`Option.none`; Python truthiness of parsed JSON is `jsonTruthy`.
-/

/-- A parsed JSON value, as returned by a successful `request.get_json`. -/
inductive Json where
  | null
  | bool (b : Bool)
  | num (n : Int)
  | str (s : String)
  | arr (elems : List Json)
  | obj (fields : List (String × Json))

/-- Python truthiness of a parsed JSON value (`if not json_data`):
`None`, `False`, `0`, `""`, `[]`, `{}` are falsy, everything else truthy. -/
def jsonTruthy : Json → Bool
  | Json.null => false
  | Json.bool b => b
  | Json.num n => n != 0
  | Json.str s => s != ""
  | Json.arr elems => !elems.isEmpty
  | Json.obj fields => !fields.isEmpty

/-- The `telegram.Update` object produced by `Update.de_json`; its
internals are out of scope, we keep the payload it was built from. -/
structure Update where
  payload : Json

/-- The `TelegramBot` instance (out-of-scope collaborator from `bot.py`);
only its presence (`bot` global is `None` or not) matters here. -/
structure TelegramBot where
  mk ::

/-- The asyncio event loop held in the `loop` global: present or absent,
and closed or not (`loop.is_closed()`). -/
structure EventLoop where
  closed : Bool
deriving Repr, DecidableEq

/-- The process-wide globals of `app.py` (lines 46-49): `bot`, `loop`,
`bot_ready`.  `loop_thread` carries no observable state and is omitted. -/
structure AppState where
  bot : Option TelegramBot
  loop : Option EventLoop
  bot_ready : Bool

/-- An HTTP response as produced by `jsonify({'status': ...}), code`:
the status code and the `status` field of the JSON body. -/
structure HttpResponse where
  code : Nat
  status : String
deriving Repr, DecidableEq

/-- `webhook` (app.py lines 229-269).

Inputs beyond the global state:
* `getJsonResult` — the outcome of `request.get_json(force=True)`.
  Flask (with `silent=False`, the default) raises `BadRequest` when the
  body is empty or not decodable as JSON; that is the `.error` case.
* `deJson` — the outcome of `Update.de_json` on the parsed value
  (`.error` when it raises).

The result pairs the HTTP response with the list of tasks submitted to
the event loop via `run_coroutine_threadsafe` (empty or a singleton). -/
def webhook (st : AppState) (getJsonResult : Except Unit Json)
    (deJson : Json → Except Unit Update) : HttpResponse × List Update :=
  -- `if not bot_ready or not bot` (line 233)
  if !st.bot_ready || st.bot.isNone then
    ({ code := 503, status := "bot_not_ready" }, [])
  -- `if not loop or loop.is_closed()` (line 238)
  else if st.loop.isNone || st.loop.any (fun l => l.closed) then
    ({ code := 503, status := "loop_error" }, [])
  else
    match getJsonResult with
    -- `request.get_json(force=True)` raised `BadRequest`: caught by the
    -- outer `except Exception` (line 267) => 500 `error`
    | Except.error _ => ({ code := 500, status := "error" }, [])
    | Except.ok j =>
      -- `if not json_data` (line 244)
      if !jsonTruthy j then
        ({ code := 400, status := "invalid_data" }, [])
      else
        match deJson j with
        -- inner `except Exception as parse_error` (line 263)
        | Except.error _ => ({ code := 400, status := "parse_error" }, [])
        | Except.ok u =>
          -- `run_coroutine_threadsafe(bot.process_update(update), loop)`;
          -- the future is discarded (line 255), response sent at once
          ({ code := 200, status := "ok" }, [u])

/-- The webhook followed by the eventual execution of the submitted
tasks on the worker thread: `processUpdate` is the outcome of
`bot.process_update` for each queued update.  The HTTP response is the
first component; task outcomes are never read by the handler. -/
def webhookAndProcess (st : AppState) (getJsonResult : Except Unit Json)
    (deJson : Json → Except Unit Update)
    (processUpdate : Update → Except Unit Unit) :
    HttpResponse × List (Except Unit Unit) :=
  ((webhook st getJsonResult deJson).1,
   ((webhook st getJsonResult deJson).2).map processUpdate)

/-! ## The Google service adapter (`services/google_service.py`) -/

/-- An exception raised by a remote Google API call (e.g. `HttpError`). -/
structure RemoteError where
  msg : String
deriving Repr, DecidableEq

/-- A Drive `files` resource as returned by `files().create` /
`files().get`; Python reads fields with `.get(...)`, so each is
optional. -/
structure FileResource where
  id : Option String
  name : Option String
deriving Repr, DecidableEq

/-- The folder metadata dict built in `create_folder` (lines 126-130). -/
structure FolderMetadata where
  name : String
  mimeType : String
  parents : List String
deriving Repr, DecidableEq

/-- The permission dict built in `_set_folder_permissions`
(lines 155-159). -/
structure Permission where
  type : String
  role : String
  emailAddress : String
deriving Repr, DecidableEq

/-- The `about().get(fields='storageQuota,user')` result: we keep the
field `get_drive_quota_info` reads, `user.emailAddress`. -/
structure AboutInfo where
  userEmail : Option String
deriving Repr, DecidableEq

/-- The remote Google APIs, as an oracle: each field is the outcome of
the corresponding `.execute()` call (`.error` when it raises). -/
structure RemoteApi where
  filesCreate : FolderMetadata → Except RemoteError FileResource
  permissionsCreate : Option String → Permission → Except RemoteError Unit
  filesGet : Option String → Except RemoteError FileResource
  uploadCreate : String → String → String → Except RemoteError FileResource
  aboutGet : Except RemoteError AboutInfo
  valuesAppend : String → List String → Except RemoteError Unit

/-- The `GoogleService` object state: the env-derived configuration and
the (possibly unbuilt) service handles (`service_drive`,
`service_sheets` start as `None`, lines 34-35). -/
structure GoogleService where
  parent_folder_id : Option String
  owner_email : Option String
  service_drive : Option Unit
  service_sheets : Option Unit

/-- Python `a or b` on optional strings: `a` unless it is `None` or
empty (`parent_folder_id or self.parent_folder_id`, line 123). -/
def pyOrStr (a b : Option String) : Option String :=
  match a with
  | none => b
  | some s => if s = "" then b else some s

/-- The metadata dict of `create_folder` (lines 126-130):
`'parents': [parent_id] if parent_id else []`. -/
def folderMetadata (folder_name : String) (parent_id : Option String) :
    FolderMetadata :=
  { name := folder_name
    mimeType := "application/vnd.google-apps.folder"
    parents :=
      match parent_id with
      | none => []
      | some p => if p = "" then [] else [p] }

/-- `_set_folder_permissions` (lines 150-171): when `owner_email` is
set, attempt the ownership-transfer `permissions().create`; any raise is
caught and only logged (`except` at line 170), so the function always
returns `None`. -/
def set_folder_permissions (svc : GoogleService) (remote : RemoteApi)
    (folder_id : Option String) : Unit :=
  match svc.owner_email with
  | none => ()
  | some email =>
    match remote.permissionsCreate folder_id
        { type := "user", role := "owner", emailAddress := email } with
    | Except.ok _ => ()
    | Except.error _ => ()

/-- `create_folder` (lines 116-148): `None` when the Drive service is
unauthenticated or `files().create` raises; otherwise the created
folder's id after the (non-fatal) permission grant. -/
def create_folder (svc : GoogleService) (remote : RemoteApi)
    (folder_name : String) (parent_folder_id : Option String) :
    Option String :=
  match svc.service_drive with
  | none => none
  | some _ =>
    let parent_id := pyOrStr parent_folder_id svc.parent_folder_id
    match remote.filesCreate (folderMetadata folder_name parent_id) with
    | Except.error _ => none
    | Except.ok folder =>
      let folder_id := folder.id
      let _ := set_folder_permissions svc remote folder_id
      folder_id

/-- `upload_to_drive` (lines 173-209): `None` when the Drive service is
unauthenticated or the chunked `files().create` upload raises; otherwise
the uploaded file's id. -/
def upload_to_drive (svc : GoogleService) (remote : RemoteApi)
    (file_path file_name folder_id : String) : Option String :=
  match svc.service_drive with
  | none => none
  | some _ =>
    match remote.uploadCreate file_path file_name folder_id with
    | Except.error _ => none
    | Except.ok uploaded => uploaded.id

/-- `get_folder_link` (lines 211-213). -/
def get_folder_link (folder_id : String) : String :=
  "https://drive.google.com/drive/folders/" ++ folder_id

/-- `update_spreadsheet` (lines 215-238).  `prepared_row` is the outcome
of the out-of-scope `spreadsheet_config.prepare_row_data` call
(`.error` when it raises, caught by the same `except`). -/
def update_spreadsheet (svc : GoogleService) (remote : RemoteApi)
    (spreadsheet_id : String)
    (prepared_row : Except RemoteError (List String)) : Bool :=
  match svc.service_sheets with
  | none => false
  | some _ =>
    match prepared_row with
    | Except.error _ => false
    | Except.ok row =>
      match remote.valuesAppend spreadsheet_id row with
      | Except.error _ => false
      | Except.ok _ => true

/-- `test_service_account_access` (lines 240-267): Drive is probed with
a real `files().get` on the parent folder (raise caught at line 255);
Sheets is "tested" only by checking that the handle was built
(line 259) — no Sheets API call is made. -/
def test_service_account_access (svc : GoogleService)
    (remote : RemoteApi) : Bool :=
  let drive_ok :=
    match svc.service_drive with
    | none => false
    | some _ =>
      match remote.filesGet svc.parent_folder_id with
      | Except.ok _ => true
      | Except.error _ => false
  let sheets_ok := svc.service_sheets.isSome
  drive_ok && sheets_ok

/-- The dict returned by `get_drive_quota_info`: the failure branch
(lines 316-319) omits the `service_account` key, hence the `Option`. -/
structure QuotaInfo where
  type : String
  service_account : Option String
  note : String
deriving Repr, DecidableEq

/-- `get_drive_quota_info` (lines 294-319): `None` only when the Drive
service is unauthenticated; when `about().get` raises, the `except`
branch returns a fallback info dict, not `None`. -/
def get_drive_quota_info (svc : GoogleService) (remote : RemoteApi) :
    Option QuotaInfo :=
  match svc.service_drive with
  | none => none
  | some _ =>
    match remote.aboutGet with
    | Except.ok about =>
      some { type := "service_account"
             service_account := some (about.userEmail.getD "Unknown")
             note := "Service Account quotas are managed differently than personal accounts" }
    | Except.error _ =>
      some { type := "service_account"
             service_account := none
             note := "Quota information not available for service accounts" }

/-! ## Startup and process lifecycle (`app.py`) -/

/-- The possible outcomes of the body of `initialize_bot_async`
(lines 72-92), enumerating where the out-of-scope collaborators can
fail: the `TelegramBot(...)` constructor raising, and
`bot.initialize_application()` raising or returning `False`/`True`. -/
inductive InitOutcome where
  | createRaises
  | appInitRaises
  | appInitFalse
  | appInitTrue
deriving Repr, DecidableEq

/-- `initialize_bot_async` (lines 72-92) as a state transformer on the
globals: returns the coroutine's result and the new state.  `bot` is
assigned before `initialize_application` runs; `bot_ready` is assigned
(to `True`, line 83) only in the success branch; every `except`/failure
branch returns `False` without touching `bot_ready`. -/
def initialize_bot_async (o : InitOutcome) (st : AppState) :
    Bool × AppState :=
  match o with
  | InitOutcome.createRaises => (false, st)
  | InitOutcome.appInitRaises => (false, { st with bot := some {} })
  | InitOutcome.appInitFalse => (false, { st with bot := some {} })
  | InitOutcome.appInitTrue =>
      (true, { st with bot := some {}, bot_ready := true })

/-- `create_and_run_loop` (lines 51-60): the worker thread installs a
fresh, open event loop and runs it forever. -/
def create_and_run_loop (st : AppState) : AppState :=
  { st with loop := some { closed := false } }

/-- `start_event_loop` (lines 62-70): spawn the worker thread, sleep
500ms, then report `loop is not None`.  `readyInTime` is whether the
worker got to install the loop within the bounded wait (the sleep is a
race, not a guarantee). -/
def start_event_loop (readyInTime : Bool) (st : AppState) :
    Bool × AppState :=
  let st1 := if readyInTime then create_and_run_loop st else st
  (st1.loop.isSome, st1)

/-- `initialize_bot` (lines 94-105): `False` when the loop is absent;
otherwise submit `initialize_bot_async` to the loop and block on the
future (any raise is caught and yields `False`; `initialize_bot_async`
itself catches its own exceptions and returns `False`). -/
def initialize_bot (o : InitOutcome) (st : AppState) : Bool × AppState :=
  match st.loop with
  | none => (false, st)
  | some _ => initialize_bot_async o st

/-- `startup` (lines 272-299): `Except.error c` models `exit(c)`.
`start_event_loop` failing or `initialize_bot` failing is fatal
(`exit(1)`, lines 281 and 287); the service-account access test result
(`accessOk`) is only logged and never gates startup. -/
def startup (readyInTime : Bool) (o : InitOutcome) (accessOk : Bool)
    (st : AppState) : Except Nat AppState :=
  let r1 := start_event_loop readyInTime st
  if !r1.1 then Except.error 1
  else
    let r2 := initialize_bot o r1.2
    if !r2.1 then Except.error 1
    else
      let _ := accessOk
      Except.ok r2.2

/-- The initial values of the globals (lines 46-49): `bot = None`,
`loop = None`, `bot_ready = False`. -/
def initialState : AppState :=
  { bot := none, loop := none, bot_ready := false }

/-- `startup()` runs at module import (line 302), before
`app.run(...)`: the process serves requests (from state `st`) only if
`startup` did not exit. -/
def processRun (readyInTime : Bool) (o : InitOutcome) (accessOk : Bool) :
    Except Nat AppState :=
  startup readyInTime o accessOk initialState

/-- The GET routes of `app.py` (`/`, `/health`,
`/test-service-account`, `/cleanup`). -/
inductive Route where
  | index
  | health
  | testServiceAccount
  | cleanup
deriving Repr, DecidableEq

/-- Every operation of the program that runs against the globals after
module load: the two startup phases and the HTTP handlers.  The GET
handlers and `webhook` contain no assignment to any global (they only
read `bot`, `loop`, `bot_ready`), so their step is the identity on the
state. -/
inductive LifecycleOp where
  | startLoop (readyInTime : Bool)
  | initBot (o : InitOutcome)
  | httpGet (r : Route)
  | httpWebhook (getJsonResult : Except Unit Json)
      (deJson : Json → Except Unit Update)

/-- The effect of one operation on the globals. -/
def stepState (op : LifecycleOp) (st : AppState) : AppState :=
  match op with
  | LifecycleOp.startLoop readyInTime => (start_event_loop readyInTime st).2
  | LifecycleOp.initBot o => (initialize_bot o st).2
  | LifecycleOp.httpGet _ => st
  | LifecycleOp.httpWebhook _ _ => st

/-- A whole run: the operations executed in order from a state. -/
def runOps (ops : List LifecycleOp) (st : AppState) : AppState :=
  ops.foldl (fun s op => stepState op s) st

/-! ## Concrete fixtures used by witnesses and counterexamples -/

/-- Post-initialization globals: bot built, loop open, flag set. -/
def stReadyOpen : AppState :=
  { bot := some {}, loop := some { closed := false }, bot_ready := true }

/-- Pre-initialization globals with the loop already running. -/
def stNotReady : AppState :=
  { bot := none, loop := some { closed := false }, bot_ready := false }

/-- Not ready, and the loop is also torn down. -/
def stNotReadyClosedLoop : AppState :=
  { bot := none, loop := some { closed := true }, bot_ready := false }

/-- Ready bot, but the loop is closed. -/
def stReadyClosedLoop : AppState :=
  { bot := some {}, loop := some { closed := true }, bot_ready := true }

/-- A minimal valid update payload. -/
def samplePayload : Json := Json.obj [("update_id", Json.num 10)]

/-- An `Update.de_json` that succeeds on every payload. -/
def deJsonOk : Json → Except Unit Update :=
  fun j => Except.ok { payload := j }

/-- An `Update.de_json` that raises on every payload. -/
def deJsonFail : Json → Except Unit Update :=
  fun _ => Except.error ()

/-! ## Claims about the webhook dispatcher -/

/-- Claim C1: while the readiness flag is false or the bot instance is
absent, every POST to `/webhook` gets 503 with status `bot_not_ready`
and no task is submitted to the event loop, whatever the payload. -/
theorem webhook_rejects_before_ready (st : AppState)
    (getJsonResult : Except Unit Json)
    (deJson : Json → Except Unit Update)
    (h : st.bot_ready = false ∨ st.bot = none) :
    webhook st getJsonResult deJson
      = ({ code := 503, status := "bot_not_ready" }, []) := by
  rcases h with h | h <;> simp [webhook, h]

/-- Witness for C1: a concrete pre-readiness state and payload. -/
theorem webhook_rejects_before_ready_witness :
    webhook stNotReady (Except.ok samplePayload) deJsonOk
      = ({ code := 503, status := "bot_not_ready" }, []) :=
  webhook_rejects_before_ready stNotReady (Except.ok samplePayload)
    deJsonOk (Or.inl rfl)

/-- Claim C2: after readiness, with the loop open, a parseable truthy
payload whose `Update.de_json` succeeds is answered 200 `ok` with
exactly one task submitted, and the HTTP response does not depend on
the outcome of the submitted task (fire-and-forget). -/
theorem webhook_dispatches_when_ready (st : AppState) (j : Json)
    (deJson : Json → Except Unit Update) (u : Update)
    (b : TelegramBot) (l : EventLoop)
    (hready : st.bot_ready = true) (hbot : st.bot = some b)
    (hloop : st.loop = some l) (hopen : l.closed = false)
    (htruthy : jsonTruthy j = true) (hparse : deJson j = Except.ok u) :
    webhook st (Except.ok j) deJson
      = ({ code := 200, status := "ok" }, [u]) ∧
    ∀ p₁ p₂ : Update → Except Unit Unit,
      (webhookAndProcess st (Except.ok j) deJson p₁).1 =
        (webhookAndProcess st (Except.ok j) deJson p₂).1 := by
  constructor
  · simp [webhook, hready, hbot, hloop, hopen, htruthy, hparse]
  · intro p₁ p₂
    simp [webhookAndProcess]

/-- Witness for C2: a concrete ready state and valid payload. -/
theorem webhook_dispatches_when_ready_witness :
    webhook stReadyOpen (Except.ok samplePayload) deJsonOk
      = ({ code := 200, status := "ok" }, [{ payload := samplePayload }]) ∧
    ∀ p₁ p₂ : Update → Except Unit Unit,
      (webhookAndProcess stReadyOpen (Except.ok samplePayload) deJsonOk p₁).1 =
        (webhookAndProcess stReadyOpen (Except.ok samplePayload) deJsonOk p₂).1 :=
  webhook_dispatches_when_ready stReadyOpen samplePayload deJsonOk
    { payload := samplePayload } {} { closed := false }
    rfl rfl rfl rfl rfl rfl

/-- Claim C3 counterexample: post-readiness, a request body that is
empty or not decodable as JSON makes `request.get_json(force=True)`
raise `BadRequest`; the handler's outer `except` answers 500 `error`,
not 400 as the claim states. -/
theorem webhook_undecodable_body_gives_500 :
    webhook stReadyOpen (Except.error ()) deJsonOk
      = ({ code := 500, status := "error" }, []) ∧
    ¬ (webhook stReadyOpen (Except.error ()) deJsonOk).1.code = 400 := by
  constructor
  · rfl
  · intro h
    simp [webhook, stReadyOpen] at h

/-- Claim C3 (amended): post-readiness with an open loop, a body on
which `get_json` raises is answered 500 `error`; a body parsing to a
falsy JSON value is answered 400 `invalid_data`; a truthy parsed body
on which `Update.de_json` raises is answered 400 `parse_error`.  In all
three cases no task is submitted to the event loop. -/
theorem webhook_bad_payload_responses (st : AppState)
    (deJson : Json → Except Unit Update) (b : TelegramBot) (l : EventLoop)
    (hready : st.bot_ready = true) (hbot : st.bot = some b)
    (hloop : st.loop = some l) (hopen : l.closed = false) :
    (webhook st (Except.error ()) deJson
        = ({ code := 500, status := "error" }, [])) ∧
    (∀ j, jsonTruthy j = false →
        webhook st (Except.ok j) deJson
          = ({ code := 400, status := "invalid_data" }, [])) ∧
    (∀ j, jsonTruthy j = true → deJson j = Except.error () →
        webhook st (Except.ok j) deJson
          = ({ code := 400, status := "parse_error" }, [])) := by
  refine ⟨?_, ?_, ?_⟩
  · simp [webhook, hready, hbot, hloop, hopen]
  · intro j hj
    simp [webhook, hready, hbot, hloop, hopen, hj]
  · intro j hj hp
    simp [webhook, hready, hbot, hloop, hopen, hj, hp]

/-- Witness for the amended C3: the three regimes at concrete inputs. -/
theorem webhook_bad_payload_responses_witness :
    (webhook stReadyOpen (Except.error ()) deJsonFail
        = ({ code := 500, status := "error" }, [])) ∧
    (webhook stReadyOpen (Except.ok (Json.obj [])) deJsonFail
        = ({ code := 400, status := "invalid_data" }, [])) ∧
    (webhook stReadyOpen (Except.ok samplePayload) deJsonFail
        = ({ code := 400, status := "parse_error" }, [])) := by
  have h := webhook_bad_payload_responses stReadyOpen deJsonFail {}
    { closed := false } rfl rfl rfl rfl
  exact ⟨h.1, h.2.1 (Json.obj []) rfl, h.2.2 samplePayload rfl rfl⟩

/-- Claim C10: the readiness check takes precedence over the loop
check — not-ready (or absent bot) gives `bot_not_ready` even with the
loop absent or closed, and `loop_error` occurs only when the bot is
ready and present but the loop is absent or closed. -/
theorem webhook_readiness_precedes_loop_check :
    (∀ (st : AppState) (getJsonResult : Except Unit Json)
        (deJson : Json → Except Unit Update),
      (st.bot_ready = false ∨ st.bot = none) →
      webhook st getJsonResult deJson
        = ({ code := 503, status := "bot_not_ready" }, [])) ∧
    (∀ (st : AppState) (getJsonResult : Except Unit Json)
        (deJson : Json → Except Unit Update) (b : TelegramBot),
      st.bot_ready = true → st.bot = some b →
      (st.loop = none ∨ st.loop.any (fun l => l.closed) = true) →
      webhook st getJsonResult deJson
        = ({ code := 503, status := "loop_error" }, [])) := by
  constructor
  · intro st getJsonResult deJson h
    rcases h with h | h <;> simp [webhook, h]
  · intro st getJsonResult deJson b hready hbot h
    rcases h with h | h <;> simp [webhook, hready, hbot, h]

/-- Witness for C10: with a closed loop, the not-ready state gets
`bot_not_ready` and the ready state gets `loop_error`. -/
theorem webhook_readiness_precedes_loop_check_witness :
    webhook stNotReadyClosedLoop (Except.ok samplePayload) deJsonOk
      = ({ code := 503, status := "bot_not_ready" }, []) ∧
    webhook stReadyClosedLoop (Except.ok samplePayload) deJsonOk
      = ({ code := 503, status := "loop_error" }, []) :=
  ⟨webhook_readiness_precedes_loop_check.1 stNotReadyClosedLoop
      (Except.ok samplePayload) deJsonOk (Or.inl rfl),
   webhook_readiness_precedes_loop_check.2 stReadyClosedLoop
      (Except.ok samplePayload) deJsonOk {} rfl rfl (Or.inr rfl)⟩

/-! ## Claims about the Google service adapter -/

/-- A fully configured service with both handles built. -/
def svcFull : GoogleService :=
  { parent_folder_id := some "parent123"
    owner_email := some "owner@example.com"
    service_drive := some ()
    service_sheets := some () }

/-- A remote where every call succeeds. -/
def remoteAllOk : RemoteApi :=
  { filesCreate := fun _ => Except.ok { id := some "folder456", name := some "New Folder" }
    permissionsCreate := fun _ _ => Except.ok ()
    filesGet := fun _ => Except.ok { id := some "parent123", name := some "Parent" }
    uploadCreate := fun _ _ _ => Except.ok { id := some "file789", name := some "doc" }
    aboutGet := Except.ok { userEmail := some "sa@example.com" }
    valuesAppend := fun _ _ => Except.ok () }

/-- A remote where every call raises. -/
def remoteAllFail : RemoteApi :=
  { filesCreate := fun _ => Except.error { msg := "network failure" }
    permissionsCreate := fun _ _ => Except.error { msg := "network failure" }
    filesGet := fun _ => Except.error { msg := "network failure" }
    uploadCreate := fun _ _ _ => Except.error { msg := "network failure" }
    aboutGet := Except.error { msg := "network failure" }
    valuesAppend := fun _ _ => Except.error { msg := "network failure" } }

/-- A remote where only the ownership-transfer permission call raises. -/
def remotePermFail : RemoteApi :=
  { remoteAllOk with
    permissionsCreate := fun _ _ => Except.error { msg := "cannot transfer ownership" } }

/-- Claim C5 counterexample: not every remote error inside
`create_folder` yields the null sentinel — when `files().create`
succeeds and the ownership-transfer `permissions().create` raises, the
created folder's id is returned, not `None`. -/
theorem create_folder_permission_error_not_null :
    create_folder svcFull remotePermFail "New Folder" none = some "folder456" ∧
    ¬ create_folder svcFull remotePermFail "New Folder" none = none := by
  constructor
  · rfl
  · intro h
    simp [create_folder, svcFull, remotePermFail, remoteAllOk, pyOrStr] at h

/-- Claim C5 (amended): a remote error in the folder-creation call
itself makes `create_folder` return the null sentinel, and no remote
error ever propagates past the adapter (the permission grant is the one
exception to the null-return: its error leaves the result unchanged,
see C6).  Non-propagation holds by totality: `create_folder` is a total
function into `Option String`. -/
theorem create_folder_create_error_returns_none (svc : GoogleService)
    (remote : RemoteApi) (folder_name : String) (parent : Option String)
    (e : RemoteError)
    (herr : remote.filesCreate
        (folderMetadata folder_name (pyOrStr parent svc.parent_folder_id))
        = Except.error e) :
    create_folder svc remote folder_name parent = none := by
  cases hd : svc.service_drive <;> simp [create_folder, hd, herr]

/-- Witness for the amended C5: the all-failing remote at a concrete
call. -/
theorem create_folder_create_error_returns_none_witness :
    create_folder svcFull remoteAllFail "New Folder" none = none :=
  create_folder_create_error_returns_none svcFull remoteAllFail
    "New Folder" none { msg := "network failure" } rfl

/-- Claim C6: when the folder is created, a failure of the secondary
ownership-transfer permission grant is non-fatal — `create_folder`
still returns the created folder's id, and its result is the same
whatever the permission call's outcome. -/
theorem create_folder_permission_failure_nonfatal (svc : GoogleService)
    (remote : RemoteApi) (folder_name : String) (parent : Option String)
    (folder : FileResource) (hdrive : svc.service_drive = some ())
    (hok : remote.filesCreate
        (folderMetadata folder_name (pyOrStr parent svc.parent_folder_id))
        = Except.ok folder) :
    create_folder svc remote folder_name parent = folder.id ∧
    ∀ pc : Option String → Permission → Except RemoteError Unit,
      create_folder svc { remote with permissionsCreate := pc }
        folder_name parent = folder.id := by
  refine ⟨?_, fun pc => ?_⟩ <;> simp [create_folder, hdrive, hok]

/-- Witness for C6: concrete folder creation with a failing permission
grant still yields the folder id. -/
theorem create_folder_permission_failure_nonfatal_witness :
    create_folder svcFull remotePermFail "New Folder" none = some "folder456" ∧
    ∀ pc : Option String → Permission → Except RemoteError Unit,
      create_folder svcFull { remotePermFail with permissionsCreate := pc }
        "New Folder" none = some "folder456" :=
  create_folder_permission_failure_nonfatal svcFull remotePermFail
    "New Folder" none { id := some "folder456", name := some "New Folder" }
    rfl rfl

/-- Claim C7 counterexample: with the Drive handle built, a remote
error in the quota query does not give null — `get_drive_quota_info`
returns the fallback info dict of its `except` branch. -/
theorem get_drive_quota_info_error_not_null :
    get_drive_quota_info svcFull remoteAllFail
      = some { type := "service_account"
               service_account := none
               note := "Quota information not available for service accounts" } ∧
    ¬ get_drive_quota_info svcFull remoteAllFail = none := by
  constructor
  · rfl
  · intro h
    simp [get_drive_quota_info, svcFull, remoteAllFail] at h

/-- Claim C7 (amended): remote errors inside the adapter are caught and
never propagate (each operation is a total function into its sentinel
type); `upload_to_drive` converts them to `None`, `update_spreadsheet`
and `test_service_account_access` to `False` — but `get_drive_quota_info`
converts a remote failure to a fallback info object and returns `None`
only when the Drive handle is absent. -/
theorem adapter_remote_error_sentinels (svc : GoogleService)
    (remote : RemoteApi) (hdrive : svc.service_drive = some ()) :
    (∀ e, remote.aboutGet = Except.error e →
        get_drive_quota_info svc remote
          = some { type := "service_account"
                   service_account := none
                   note := "Quota information not available for service accounts" }) ∧
    (∀ svc2 : GoogleService, svc2.service_drive = none →
        get_drive_quota_info svc2 remote = none) ∧
    (∀ p n f e, remote.uploadCreate p n f = Except.error e →
        upload_to_drive svc remote p n f = none) ∧
    (∀ sid row e, remote.valuesAppend sid row = Except.error e →
        update_spreadsheet svc remote sid (Except.ok row) = false) ∧
    (∀ e, remote.filesGet svc.parent_folder_id = Except.error e →
        test_service_account_access svc remote = false) := by
  refine ⟨?_, ?_, ?_, ?_, ?_⟩
  · intro e he
    simp [get_drive_quota_info, hdrive, he]
  · intro svc2 h2
    simp [get_drive_quota_info, h2]
  · intro p n f e he
    simp [upload_to_drive, hdrive, he]
  · intro sid row e he
    cases hs : svc.service_sheets <;> simp [update_spreadsheet, hs, he]
  · intro e he
    simp [test_service_account_access, hdrive, he]

/-- Witness for the amended C7: the all-failing remote at concrete
inputs. -/
theorem adapter_remote_error_sentinels_witness :
    get_drive_quota_info svcFull remoteAllFail
      = some { type := "service_account"
               service_account := none
               note := "Quota information not available for service accounts" } ∧
    upload_to_drive svcFull remoteAllFail "/tmp/x.pdf" "x.pdf" "folder456" = none ∧
    update_spreadsheet svcFull remoteAllFail "sheet1" (Except.ok ["a", "b"]) = false ∧
    test_service_account_access svcFull remoteAllFail = false := by
  have h := adapter_remote_error_sentinels svcFull remoteAllFail rfl
  exact ⟨h.1 { msg := "network failure" } rfl,
         h.2.2.1 "/tmp/x.pdf" "x.pdf" "folder456" { msg := "network failure" } rfl,
         h.2.2.2.1 "sheet1" ["a", "b"] { msg := "network failure" } rfl,
         h.2.2.2.2 { msg := "network failure" } rfl⟩

/-- Claim C9: `test_service_account_access` is true exactly when the
Drive handle is built, the remote `files().get` on the parent folder
succeeds, and the Sheets handle is built; and it never touches the
Sheets remote API (its value is unchanged under any replacement of the
sheets-append oracle), so Sheets readiness comes purely from the handle
existing. -/
theorem test_access_characterization (svc : GoogleService)
    (remote : RemoteApi) :
    (test_service_account_access svc remote = true ↔
      (svc.service_drive = some () ∧
       (∃ f, remote.filesGet svc.parent_folder_id = Except.ok f) ∧
       svc.service_sheets = some ())) ∧
    (∀ g, test_service_account_access svc
        { remote with valuesAppend := g }
      = test_service_account_access svc remote) := by
  constructor
  · cases hd : svc.service_drive with
    | none => simp [test_service_account_access, hd]
    | some u =>
      cases u
      cases hg : remote.filesGet svc.parent_folder_id with
      | error e =>
        simp [test_service_account_access, hd, hg]
      | ok f =>
        cases hs : svc.service_sheets with
        | none => simp [test_service_account_access, hd, hg, hs]
        | some v =>
          cases v
          simp [test_service_account_access, hd, hg, hs]
  · intro g
    rfl

/-- Witness for C9: the all-succeeding remote passes the test. -/
theorem test_access_characterization_witness :
    test_service_account_access svcFull remoteAllOk = true :=
  (test_access_characterization svcFull remoteAllOk).1.mpr
    ⟨rfl, ⟨{ id := some "parent123", name := some "Parent" }, rfl⟩, rfl⟩

/-! ## Claims about startup and the readiness flag -/

/-- Pre-readiness globals with only the loop installed (the state right
after `start_event_loop` succeeds). -/
def stLoopOnly : AppState :=
  { bot := none, loop := some { closed := false }, bot_ready := false }

/-- Once the flag is true, no single operation resets it. -/
theorem stepState_bot_ready_mono (op : LifecycleOp) (st : AppState)
    (h : st.bot_ready = true) : (stepState op st).bot_ready = true := by
  cases op with
  | startLoop readyInTime =>
    cases readyInTime <;>
      simpa [stepState, start_event_loop, create_and_run_loop] using h
  | initBot o =>
    cases hl : st.loop with
    | none => simpa [stepState, initialize_bot, hl] using h
    | some l =>
      cases o <;>
        simp [stepState, initialize_bot, initialize_bot_async, hl, h]
  | httpGet r => exact h
  | httpWebhook getJsonResult deJson => exact h

/-- The flag becomes true only through a successful
`initialize_bot_async`. -/
theorem stepState_bot_ready_only_init (op : LifecycleOp) (st : AppState)
    (h : (stepState op st).bot_ready = true) :
    st.bot_ready = true ∨ op = LifecycleOp.initBot InitOutcome.appInitTrue := by
  cases op with
  | startLoop readyInTime =>
    left
    cases readyInTime <;>
      simpa [stepState, start_event_loop, create_and_run_loop] using h
  | initBot o =>
    cases hl : st.loop with
    | none => left; simpa [stepState, initialize_bot, hl] using h
    | some l =>
      cases o with
      | appInitTrue => right; rfl
      | createRaises =>
        left; simpa [stepState, initialize_bot, initialize_bot_async, hl] using h
      | appInitRaises =>
        left; simpa [stepState, initialize_bot, initialize_bot_async, hl] using h
      | appInitFalse =>
        left; simpa [stepState, initialize_bot, initialize_bot_async, hl] using h
  | httpGet r => left; exact h
  | httpWebhook getJsonResult deJson => left; exact h

/-- Monotonicity along a whole run of operations. -/
theorem runOps_bot_ready_mono (ops : List LifecycleOp) (st : AppState)
    (h : st.bot_ready = true) : (runOps ops st).bot_ready = true := by
  induction ops generalizing st with
  | nil => exact h
  | cons op rest ih => exact ih (stepState op st) (stepState_bot_ready_mono op st h)

/-- Claim C4: the readiness flag starts false, is set to true only by a
successful asynchronous bot initialization, is never reset by any
operation (so the false-to-true transition happens at most once per
process), and the HTTP handlers are pure readers: their step leaves the
globals unchanged. -/
theorem bot_ready_set_once_monotone :
    initialState.bot_ready = false ∧
    (∀ (op : LifecycleOp) (st : AppState), st.bot_ready = true →
        (stepState op st).bot_ready = true) ∧
    (∀ (op : LifecycleOp) (st : AppState), (stepState op st).bot_ready = true →
        st.bot_ready = true ∨ op = LifecycleOp.initBot InitOutcome.appInitTrue) ∧
    (∀ (r : Route) (st : AppState), stepState (LifecycleOp.httpGet r) st = st) ∧
    (∀ (getJsonResult : Except Unit Json)
        (deJson : Json → Except Unit Update) (st : AppState),
        stepState (LifecycleOp.httpWebhook getJsonResult deJson) st = st) ∧
    (∀ (ops : List LifecycleOp) (st : AppState), st.bot_ready = true →
        (runOps ops st).bot_ready = true) :=
  ⟨rfl, stepState_bot_ready_mono, stepState_bot_ready_only_init,
   fun _ _ => rfl, fun _ _ _ => rfl, runOps_bot_ready_mono⟩

/-- Witness for C4: the flag survives a failed re-initialization and a
run of handler calls, and a successful initialization is the step that
raises it. -/
theorem bot_ready_set_once_monotone_witness :
    (stepState (LifecycleOp.initBot InitOutcome.appInitFalse) stReadyOpen).bot_ready
      = true ∧
    (stLoopOnly.bot_ready = true ∨
      LifecycleOp.initBot InitOutcome.appInitTrue
        = LifecycleOp.initBot InitOutcome.appInitTrue) ∧
    (runOps [LifecycleOp.startLoop true, LifecycleOp.httpGet Route.health]
        stReadyOpen).bot_ready = true := by
  have h := bot_ready_set_once_monotone
  exact ⟨h.2.1 (LifecycleOp.initBot InitOutcome.appInitFalse) stReadyOpen rfl,
         h.2.2.1 (LifecycleOp.initBot InitOutcome.appInitTrue) stLoopOnly rfl,
         h.2.2.2.2.2 [LifecycleOp.startLoop true, LifecycleOp.httpGet Route.health]
           stReadyOpen rfl⟩

/-- Claim C8: when the worker thread has not made the loop available
within the bounded wait, or the synchronous bot initialization does not
succeed, the process run is `exit(1)` — a non-zero exit with no serving
state ever produced. -/
theorem startup_failure_is_fatal (readyInTime : Bool) (o : InitOutcome)
    (accessOk : Bool)
    (h : readyInTime = false ∨ o ≠ InitOutcome.appInitTrue) :
    processRun readyInTime o accessOk = Except.error 1 ∧
    ∀ st : AppState, processRun readyInTime o accessOk ≠ Except.ok st := by
  have hmain : processRun readyInTime o accessOk = Except.error 1 := by
    rcases h with h | h
    · subst h
      cases o <;> rfl
    · cases o with
      | appInitTrue => exact absurd rfl h
      | createRaises => cases readyInTime <;> rfl
      | appInitRaises => cases readyInTime <;> rfl
      | appInitFalse => cases readyInTime <;> rfl
  refine ⟨hmain, fun st hst => ?_⟩
  rw [hmain] at hst
  exact Except.noConfusion hst

/-- Witness for C8: the loop missing the bounded wait is fatal at a
concrete input. -/
theorem startup_failure_is_fatal_witness :
    processRun false InitOutcome.appInitTrue true = Except.error 1 ∧
    ∀ st : AppState,
      processRun false InitOutcome.appInitTrue true ≠ Except.ok st :=
  startup_failure_is_fatal false InitOutcome.appInitTrue true (Or.inl rfl)
